import Mathlib

/-!
Verification development for the Seattle-To-Know backend.

The definitions below are a shallow embedding of
`app/services/events_service.py`, `app/services/air_quality_service.py`,
`app/services/weather_service.py` and `app/api/routes/daily_pulse.py`:
pure Lean functions mirroring the Python functions, with network calls
abstracted as explicit inputs (each adapter's already-normalized result
list is a parameter), Python `None` as `Option`, Python floats as exact
rationals, and Python exceptions as `Except`.
-/

namespace SeattleToKnow

/-- A normalized event record, the dictionaries built by the three adapter
functions and by `_get_placeholder_events` in `events_service.py`.
Keys that can hold Python `None` (or be absent, for `source`) are `Option`. -/
structure Event where
  name : String
  time : Option String
  date : Option String
  area : String
  type : String
  url : String
  source : Option String := none
  deriving DecidableEq, Repr

/-- The environment-derived credentials read at module import time
(`os.getenv` at the top of the service files). -/
structure Config where
  openweather_api_key : Option String
  eventbrite_api_key : Option String
  ticketmaster_api_key : Option String
  seatgeek_client_id : Option String
  seatgeek_client_secret : Option String
  deriving DecidableEq, Repr

instance {ε α : Type} [DecidableEq ε] [DecidableEq α] : DecidableEq (Except ε α) :=
  fun a b =>
    match a, b with
    | .ok x, .ok y =>
      if h : x = y then .isTrue (by rw [h])
      else .isFalse (by intro hh; cases hh; exact h rfl)
    | .ok _, .error _ => .isFalse (by intro h; cases h)
    | .error _, .ok _ => .isFalse (by intro h; cases h)
    | .error x, .error y =>
      if h : x = y then .isTrue (by rw [h])
      else .isFalse (by intro hh; cases hh; exact h rfl)

/-- Python truthiness of an optional string (`if KEY:`): `None` and the
empty string are falsy. -/
def truthy : Option String → Bool
  | none => false
  | some s => !(s == "")

/-- Python substring test `sub in s` on strings: `sub.data` occurs as a
contiguous sublist of `s.data`. -/
def pyIn (sub s : String) : Bool := decide (sub.data <:+: s.data)

/-- Python `str.lower()` (ASCII case mapping, all the data here is ASCII). -/
def pyLower (s : String) : String := ⟨s.data.map Char.toLower⟩

/-- Python `str.strip()`: drop leading and trailing whitespace. -/
def pyStrip (s : String) : String :=
  ⟨(((s.data.dropWhile Char.isWhitespace).reverse).dropWhile Char.isWhitespace).reverse⟩

/-- The 12-hour formatting block that appears verbatim in
`_get_eventbrite_events` (lines 165-173), `_get_ticketmaster_events` and
`_get_seatgeek_events` (lines 454-462): `hour` is `dt.hour`, in `0..23`. -/
def format_hour_12 (hour : Nat) : String :=
  if hour = 0 then "12 AM"
  else if hour < 12 then toString hour ++ " AM"
  else if hour = 12 then "12 PM"
  else toString (hour - 12) ++ " PM"

/-- The dedup key built in `_deduplicate_events`:
`(event.get("name", "").lower().strip(), event.get("time", ""))`.
Every adapter dictionary carries a `"time"` key (possibly `None`), so the
`.get` default is never taken for `time` and the key's second component is
the record's `time` value as is. -/
def evKey (e : Event) : String × Option String := (pyStrip (pyLower e.name), e.time)

/-- The first phase of `_deduplicate_events`: walk the list, keep the first
record seen for each key (`seen` accumulates the keys already kept). -/
def dedupPass (seen : List (String × Option String)) : List Event → List Event
  | [] => []
  | e :: rest =>
    if evKey e ∈ seen then dedupPass seen rest
    else e :: dedupPass (evKey e :: seen) rest

/-- Python's `<` on strings, on their code-point sequences: strict
lexicographic order, a proper prefix is smaller. -/
def lexLt : List Char → List Char → Bool
  | [], [] => false
  | [], _ :: _ => true
  | _ :: _, [] => false
  | x :: xs, y :: ys =>
    if x < y then true
    else if y < x then false
    else lexLt xs ys

/-- The sort key of `_deduplicate_events`:
`lambda x: (x.get("time", ""), x.get("name", ""))`, as code-point
sequences. A `None` time is mapped to `""` here; in Python, comparing
`None` against a `str` raises `TypeError`, which `_deduplicate_events`
below models with its error branch, so this mapping is only ever used on
lists whose retained records have all-`None` or all-string times. -/
def sortKey (e : Event) : List Char × List Char :=
  ((e.time.getD "").data, e.name.data)

/-- Ascending order on the sort key: Python tuple comparison, lexicographic
string comparison componentwise. -/
def eventLe (a b : Event) : Prop :=
  lexLt (sortKey a).1 (sortKey b).1 = true ∨
    ((sortKey a).1 = (sortKey b).1 ∧
      (lexLt (sortKey a).2 (sortKey b).2 = true ∨ (sortKey a).2 = (sortKey b).2))

instance : DecidableRel eventLe := fun a b => by
  unfold eventLe; infer_instance

/-- True when a list holds both a record with `time = None` and a record
with a string time: sorting such a list in Python raises
`TypeError: not supported between instances of NoneType and str`. -/
def mixedTimes (l : List Event) : Bool :=
  l.any (fun e => e.time.isNone) && l.any (fun e => e.time.isSome)

/-- Embedding of `_deduplicate_events` (events_service.py lines 505-520):
drop later records with a repeated `(name.lower().strip(), time)` key, then
sort ascending by the `(time, name)` display strings. The error branch is
the `TypeError` Python's sort raises when the retained records mix `None`
and string times. -/
def _deduplicate_events (events : List Event) : Except String (List Event) :=
  let unique_events := dedupPass [] events
  if mixedTimes unique_events then
    .error "TypeError: not supported between instances of NoneType and str"
  else
    .ok (List.insertionSort eventLe unique_events)

/-- The `type_mappings` dictionary local to `_filter_events_by_type`. -/
def type_mappings : List (String × List String) :=
  [("music", ["music", "concert", "live music", "jazz", "rock", "pop", "indie"]),
   ("sports", ["sports", "game", "match", "mariners", "sounders", "kraken", "seahawks"]),
   ("arts", ["arts", "art", "gallery", "theater", "theatre", "symphony", "performance"]),
   ("comedy", ["comedy", "stand-up", "standup", "humor", "humour"]),
   ("tech", ["tech", "technology", "startup", "ai", "software", "coding", "developer"]),
   ("food", ["food", "wine", "dining", "culinary", "tasting", "cooking"]),
   ("business", ["business", "networking", "entrepreneur", "startup"]),
   ("health", ["health", "fitness", "yoga", "wellness", "running", "exercise"]),
   ("education", ["education", "learning", "workshop", "seminar", "class"]),
   ("fashion", ["fashion", "style", "clothing", "design"])]

/-- `type_mappings.get(event_type_lower, [event_type_lower])`. -/
def possible_matches (etLower : String) : List String :=
  match type_mappings.find? (fun p => p.1 == etLower) with
  | some p => p.2
  | none => [etLower]

/-- The per-event match test of `_filter_events_by_type`: some keyword is a
substring of the lowered `type` field or vice versa, or some keyword is a
substring of the lowered `name` field. -/
def eventTypeMatches (possible : List String) (e : Event) : Bool :=
  possible.any (fun t => pyIn t (pyLower e.type) || pyIn (pyLower e.type) t) ||
    possible.any (fun t => pyIn t (pyLower e.name))

/-- Embedding of `_filter_events_by_type` (events_service.py lines 523-569). -/
def _filter_events_by_type (events : List Event) (event_type : String) : List Event :=
  if event_type == "" then events
  else
    events.filter (eventTypeMatches (possible_matches (pyStrip (pyLower event_type))))

/-- The static list inside `_get_placeholder_events` (events_service.py
lines 597-758). `todayStr` is `date.today().strftime("%b %d, %Y")`. -/
def placeholder_list (todayStr : String) : List Event :=
  [{ name := "Capitol Hill Art Walk", time := some "6–9 PM", date := some todayStr,
     area := "Capitol Hill", type := "Arts", url := "https://www.eventbrite.com" },
   { name := "Live Jazz at Pike Place", time := some "7 PM", date := some todayStr,
     area := "Downtown", type := "Music", url := "https://www.eventbrite.com" },
   { name := "Seattle Mariners Game", time := some "7:10 PM", date := some todayStr,
     area := "Sodo", type := "Sports", url := "https://www.mlb.com/mariners" },
   { name := "Tech Meetup at WeWork", time := some "6 PM", date := some todayStr,
     area := "Downtown", type := "Tech", url := "https://www.eventbrite.com" },
   { name := "Comedy Night at The Comedy Underground", time := some "8 PM", date := some todayStr,
     area := "Pioneer Square", type := "Comedy", url := "https://www.eventbrite.com" },
   { name := "Food & Wine Festival", time := some "12 PM", date := some todayStr,
     area := "South Lake Union", type := "Food", url := "https://www.eventbrite.com" },
   { name := "Yoga in the Park", time := some "9 AM", date := some todayStr,
     area := "Green Lake", type := "Health", url := "https://www.eventbrite.com" },
   { name := "Seattle Symphony Performance", time := some "7:30 PM", date := some todayStr,
     area := "Downtown", type := "Arts", url := "https://www.seattlesymphony.org" },
   { name := "Startup Networking Event", time := some "5:30 PM", date := some todayStr,
     area := "Capitol Hill", type := "Business", url := "https://www.eventbrite.com" },
   { name := "Fremont Street Fair", time := some "10 AM", date := some todayStr,
     area := "Fremont", type := "Arts", url := "https://www.eventbrite.com" },
   { name := "Seattle Sounders FC Match", time := some "7:30 PM", date := some todayStr,
     area := "Sodo", type := "Sports", url := "https://www.soundersfc.com" },
   { name := "Cooking Class at Sur La Table", time := some "6 PM", date := some todayStr,
     area := "Downtown", type := "Food", url := "https://www.eventbrite.com" },
   { name := "Indie Music Showcase", time := some "8 PM", date := some todayStr,
     area := "Capitol Hill", type := "Music", url := "https://www.eventbrite.com" },
   { name := "Art Gallery Opening", time := some "5 PM", date := some todayStr,
     area := "Pioneer Square", type := "Arts", url := "https://www.eventbrite.com" },
   { name := "Tech Talk: AI in Healthcare", time := some "6:30 PM", date := some todayStr,
     area := "South Lake Union", type := "Tech", url := "https://www.eventbrite.com" },
   { name := "Seattle Kraken Hockey Game", time := some "7 PM", date := some todayStr,
     area := "Uptown", type := "Sports", url := "https://www.nhl.com/kraken" },
   { name := "Wine Tasting Event", time := some "5 PM", date := some todayStr,
     area := "Queen Anne", type := "Food", url := "https://www.eventbrite.com" },
   { name := "Stand-up Comedy Show", time := some "9 PM", date := some todayStr,
     area := "Capitol Hill", type := "Comedy", url := "https://www.eventbrite.com" },
   { name := "Morning Run Club", time := some "7 AM", date := some todayStr,
     area := "Green Lake", type := "Health", url := "https://www.eventbrite.com" },
   { name := "Business Networking Breakfast", time := some "8 AM", date := some todayStr,
     area := "Downtown", type := "Business", url := "https://www.eventbrite.com" }]

/-- Embedding of `_get_placeholder_events`: the static list truncated with
`placeholder_events[:limit]`. -/
def _get_placeholder_events (todayStr : String) (limit : Nat) : List Event :=
  (placeholder_list todayStr).take limit

/-- Embedding of `get_seattle_events` (events_service.py lines 27-83).
Network effects are abstracted: `eventbrite`, `ticketmaster` and `seatgeek`
are the normalized lists the three adapters would return when their
credentials are configured; providers with falsy credentials contribute
`[]` (`_get_eventbrite_events` returns `[]` without a key, and the
Ticketmaster/SeatGeek calls are skipped in `get_seattle_events` itself).
The `Except` propagates the sort `TypeError` of `_deduplicate_events`. -/
def get_seattle_events (cfg : Config) (event_type : Option String) (limit : Nat)
    (todayStr : String) (eventbrite ticketmaster seatgeek : List Event) :
    Except String (List Event) :=
  let all_events :=
    (if truthy cfg.eventbrite_api_key then eventbrite else []) ++
      (if truthy cfg.ticketmaster_api_key then ticketmaster else []) ++
      (if truthy cfg.seatgeek_client_id && truthy cfg.seatgeek_client_secret
        then seatgeek else [])
  match _deduplicate_events all_events with
  | .error e => .error e
  | .ok unique0 =>
    let unique_events :=
      if truthy event_type then _filter_events_by_type unique0 (event_type.getD "")
      else unique0
    if unique_events.isEmpty then
      let placeholder0 := _get_placeholder_events todayStr (limit * 2)
      let placeholder_events :=
        if truthy event_type then _filter_events_by_type placeholder0 (event_type.getD "")
        else placeholder0
      .ok (placeholder_events.take limit)
    else
      .ok (unique_events.take limit)

/-- Embedding of `get_seattle_weather` (weather_service.py lines 12-36):
with a falsy `OPENWEATHER_API_KEY` it raises
`RuntimeError("OPENWEATHER_API_KEY is not set")` before any network call;
otherwise the result is whatever the upstream call and transformation
produce, abstracted as the parameter `upstream` (of an arbitrary payload
type `W`). -/
def get_seattle_weather {W : Type} (cfg : Config) (upstream : Except String W) :
    Except String W :=
  if truthy cfg.openweather_api_key then upstream
  else .error "OPENWEATHER_API_KEY is not set"

/-- The positional-parameter names of `get_seattle_events` as defined in
events_service.py line 27: `event_type`, `start_date`, `end_date`, `limit`. -/
def get_seattle_events_params : List String :=
  ["event_type", "start_date", "end_date", "limit"]

/-- The keyword arguments the `/api/events` route handler passes in both of
its `get_seattle_events(...)` calls (daily_pulse.py lines 143-149 and
155-161), including `locations`. -/
def route_get_events_kwargs : List String :=
  ["event_type", "start_date", "end_date", "locations", "limit"]

/-- Python keyword-argument binding: a call raises `TypeError` when some
keyword does not name a parameter of the callee. -/
def bindKeywordArgs (params kwargs : List String) : Except String Unit :=
  match kwargs.find? (fun k => !params.contains k) with
  | some k => .error ("TypeError: got an unexpected keyword argument " ++ k)
  | none => .ok ()

/-- One row `(low_conc, high_conc, low_aqi, high_aqi)` of
`EPA_AQI_BREAKPOINTS` (air_quality_service.py lines 23-64). -/
structure Bp where
  low_conc : ℚ
  high_conc : ℚ
  low_aqi : ℤ
  high_aqi : ℤ
  deriving DecidableEq, Repr

/-- Python's `round` on an exact value: round half to even. -/
def pyRound (q : ℚ) : ℤ :=
  if q - ⌊q⌋ < 1 / 2 then ⌊q⌋
  else if 1 / 2 < q - ⌊q⌋ then ⌊q⌋ + 1
  else if ⌊q⌋ % 2 = 0 then ⌊q⌋ else ⌊q⌋ + 1

/-- Embedding of `_calculate_epa_aqi` (air_quality_service.py lines 67-85):
scan the breakpoint rows in order; on the first row with
`low_conc <= concentration <= high_conc` return the interpolated, rounded
AQI (or `low_aqi` for a degenerate row); if no row matches, return 500. -/
def _calculate_epa_aqi (concentration : ℚ) : List Bp → ℤ
  | [] => 500
  | b :: rest =>
    if b.low_conc ≤ concentration ∧ concentration ≤ b.high_conc then
      if b.high_conc = b.low_conc then b.low_aqi
      else
        pyRound ((((b.high_aqi : ℚ) - b.low_aqi) / (b.high_conc - b.low_conc)) *
          (concentration - b.low_conc) + b.low_aqi)
    else _calculate_epa_aqi concentration rest

/-- `EPA_AQI_BREAKPOINTS["pm2_5"]`. -/
def pm2_5_breakpoints : List Bp :=
  [⟨0, 12, 0, 50⟩, ⟨121/10, 354/10, 51, 100⟩, ⟨355/10, 554/10, 101, 150⟩,
   ⟨555/10, 1504/10, 151, 200⟩, ⟨1505/10, 2504/10, 201, 300⟩, ⟨2505/10, 5004/10, 301, 500⟩]

/-- `EPA_AQI_BREAKPOINTS["pm10"]`. -/
def pm10_breakpoints : List Bp :=
  [⟨0, 54, 0, 50⟩, ⟨55, 154, 51, 100⟩, ⟨155, 254, 101, 150⟩,
   ⟨255, 354, 151, 200⟩, ⟨355, 424, 201, 300⟩, ⟨425, 604, 301, 500⟩]

/-- `EPA_AQI_BREAKPOINTS["o3"]`. -/
def o3_breakpoints : List Bp :=
  [⟨0, 54, 0, 50⟩, ⟨55, 70, 51, 100⟩, ⟨71, 85, 101, 150⟩,
   ⟨86, 105, 151, 200⟩, ⟨106, 200, 201, 300⟩, ⟨201, 500, 301, 500⟩]

/-- `EPA_AQI_BREAKPOINTS["no2"]`. -/
def no2_breakpoints : List Bp :=
  [⟨0, 53, 0, 50⟩, ⟨54, 100, 51, 100⟩, ⟨101, 360, 101, 150⟩,
   ⟨361, 649, 151, 200⟩, ⟨650, 1249, 201, 300⟩, ⟨1250, 2049, 301, 500⟩]

/-- `EPA_AQI_BREAKPOINTS["co"]`. -/
def co_breakpoints : List Bp :=
  [⟨0, 44/10, 0, 50⟩, ⟨45/10, 94/10, 51, 100⟩, ⟨95/10, 124/10, 101, 150⟩,
   ⟨125/10, 154/10, 151, 200⟩, ⟨155/10, 304/10, 201, 300⟩, ⟨305/10, 504/10, 301, 500⟩]

/-- The raw pollutant concentrations (μg/m³) extracted from the upstream
response in `get_seattle_air_quality` (lines 125-129). -/
structure Components where
  pm2_5 : ℚ
  pm10 : ℚ
  no2 : ℚ
  o3 : ℚ
  co : ℚ
  deriving DecidableEq, Repr

/-- `no2 / 1.88 if no2 > 0 else 0` (line 133). -/
def no2_to_ppb (no2 : ℚ) : ℚ := if 0 < no2 then no2 / (188/100) else 0

/-- `o3 / 1.96 if o3 > 0 else 0` (line 135). -/
def o3_to_ppb (o3 : ℚ) : ℚ := if 0 < o3 then o3 / (196/100) else 0

/-- `co / 1150 if co > 0 else 0` (line 137). -/
def co_to_ppm (co : ℚ) : ℚ := if 0 < co then co / 1150 else 0

/-- `aqi_pm25` (line 140). -/
def aqi_pm25 (c : Components) : ℤ := _calculate_epa_aqi c.pm2_5 pm2_5_breakpoints

/-- `aqi_pm10` (line 141). -/
def aqi_pm10 (c : Components) : ℤ := _calculate_epa_aqi c.pm10 pm10_breakpoints

/-- `aqi_o3` (line 142). -/
def aqi_o3 (c : Components) : ℤ := _calculate_epa_aqi (o3_to_ppb c.o3) o3_breakpoints

/-- `aqi_no2` (line 143). -/
def aqi_no2 (c : Components) : ℤ := _calculate_epa_aqi (no2_to_ppb c.no2) no2_breakpoints

/-- `aqi_co` (line 144). -/
def aqi_co (c : Components) : ℤ := _calculate_epa_aqi (co_to_ppm c.co) co_breakpoints

/-- `epa_aqi = max(aqi_pm25, aqi_pm10, aqi_o3, aqi_no2, aqi_co)` (line 147). -/
def epa_aqi (c : Components) : ℤ :=
  max (aqi_pm25 c) (max (aqi_pm10 c) (max (aqi_o3 c) (max (aqi_no2 c) (aqi_co c))))

/-- The `dominant_pollutant` if/elif chain (lines 150-160): the first
pollutant, in the order PM2.5, PM10, O3, NO2, CO, whose AQI equals the
overall maximum. -/
def dominant_pollutant (c : Components) : Option String :=
  if epa_aqi c = aqi_pm25 c then some "PM2.5"
  else if epa_aqi c = aqi_pm10 c then some "PM10"
  else if epa_aqi c = aqi_o3 c then some "O₃"
  else if epa_aqi c = aqi_no2 c then some "NO₂"
  else if epa_aqi c = aqi_co c then some "CO"
  else none

/-- A configuration with no credentials set, as when none of the
environment variables are present. -/
def no_keys_config : Config := ⟨none, none, none, none, none⟩

/-- The distinct `time` strings appearing in the static placeholder list. -/
def placeholder_time_strings : List String :=
  ["6–9 PM", "7 PM", "7:10 PM", "6 PM", "8 PM", "12 PM", "9 AM", "7:30 PM",
   "5:30 PM", "10 AM", "5 PM", "6:30 PM", "9 PM", "7 AM", "8 AM"]

/-- Sample record in the shape produced by `_get_eventbrite_events`. -/
def sample_primary : Event :=
  { name := "Indie Night", time := some "8 PM", date := some "Jan 01, 2025",
    area := "Fremont", type := "Music", url := "https://eventbrite.example/1" }

/-- Sample record in the shape produced by `_get_ticketmaster_events`, whose
dedup key collides with `sample_primary` (same lowered/stripped name, same
time). -/
def sample_secondary : Event :=
  { name := " INDIE NIGHT ", time := some "8 PM", date := some "Jan 01, 2025",
    area := "Fremont", type := "Music", url := "https://ticketmaster.example/1",
    source := some "Ticketmaster" }

/-- Sample record whose formatted display time is "10 PM". -/
def sample_ten_pm : Event :=
  { name := "Late Show", time := some "10 PM", date := some "Jan 01, 2025",
    area := "Downtown", type := "Comedy", url := "" }

/-- Sample record whose formatted display time is "2 PM". -/
def sample_two_pm : Event :=
  { name := "Afternoon Show", time := some "2 PM", date := some "Jan 01, 2025",
    area := "Downtown", type := "Comedy", url := "" }

section DedupLemmas

/-- Trichotomy for the lexicographic order. -/
theorem lexLt_total (a : List Char) : ∀ b, lexLt a b = true ∨ lexLt b a = true ∨ a = b := by
  induction a with
  | nil =>
    intro b
    cases b with
    | nil => exact Or.inr (Or.inr rfl)
    | cons y ys => exact Or.inl rfl
  | cons x xs ih =>
    intro b
    cases b with
    | nil => exact Or.inr (Or.inl rfl)
    | cons y ys =>
      by_cases hxy : x < y
      · exact Or.inl (by simp [lexLt, hxy])
      by_cases hyx : y < x
      · exact Or.inr (Or.inl (by simp [lexLt, hyx]))
      have hxye : x = y := le_antisymm (not_lt.mp hyx) (not_lt.mp hxy)
      subst hxye
      rcases ih ys with h | h | h
      · exact Or.inl (by simp [lexLt, hxy, h])
      · exact Or.inr (Or.inl (by simp [lexLt, hxy, h]))
      · exact Or.inr (Or.inr (by rw [h]))

/-- Transitivity for the lexicographic order. -/
theorem lexLt_trans (a : List Char) :
    ∀ b c, lexLt a b = true → lexLt b c = true → lexLt a c = true := by
  induction a with
  | nil =>
    intro b c h1 h2
    cases b with
    | nil => simp [lexLt] at h1
    | cons y ys =>
      cases c with
      | nil => simp [lexLt] at h2
      | cons z zs => simp [lexLt]
  | cons x xs ih =>
    intro b c h1 h2
    cases b with
    | nil => simp [lexLt] at h1
    | cons y ys =>
      cases c with
      | nil => simp [lexLt] at h2
      | cons z zs =>
        simp only [lexLt] at h1 h2 ⊢
        by_cases hxy : x < y
        · by_cases hyz : y < z
          · rw [if_pos (hxy.trans hyz)]
          · by_cases hzy : z < y
            · rw [if_neg hyz, if_pos hzy] at h2
              exact absurd h2 (by simp)
            · have hyze : y = z := le_antisymm (not_lt.mp hzy) (not_lt.mp hyz)
              rw [if_pos (hyze ▸ hxy)]
        · by_cases hyx : y < x
          · rw [if_neg hxy, if_pos hyx] at h1
            exact absurd h1 (by simp)
          · have hxye : x = y := le_antisymm (not_lt.mp hyx) (not_lt.mp hxy)
            rw [if_neg hxy, if_neg hyx] at h1
            subst hxye
            by_cases hxz : x < z
            · rw [if_pos hxz]
            · by_cases hzx : z < x
              · rw [if_neg hxz, if_pos hzx] at h2
                exact absurd h2 (by simp)
              · rw [if_neg hxz, if_neg hzx] at h2 ⊢
                exact ih ys zs h1 h2

instance : IsTotal Event eventLe := by
  constructor
  intro a b
  rcases lexLt_total (sortKey a).1 (sortKey b).1 with h | h | h
  · exact Or.inl (Or.inl h)
  · exact Or.inr (Or.inl h)
  · rcases lexLt_total (sortKey a).2 (sortKey b).2 with h2 | h2 | h2
    · exact Or.inl (Or.inr ⟨h, Or.inl h2⟩)
    · exact Or.inr (Or.inr ⟨h.symm, Or.inl h2⟩)
    · exact Or.inl (Or.inr ⟨h, Or.inr h2⟩)

instance : IsTrans Event eventLe := by
  constructor
  intro a b c hab hbc
  rcases hab with h1 | ⟨h1, h1'⟩
  · rcases hbc with h2 | ⟨h2, _⟩
    · exact Or.inl (lexLt_trans _ _ _ h1 h2)
    · exact Or.inl (h2 ▸ h1)
  · rcases hbc with h2 | ⟨h2, h2'⟩
    · exact Or.inl (h1 ▸ h2)
    · refine Or.inr ⟨h1.trans h2, ?_⟩
      rcases h1' with h3 | h3
      · rcases h2' with h4 | h4
        · exact Or.inl (lexLt_trans _ _ _ h3 h4)
        · exact Or.inl (h4 ▸ h3)
      · rcases h2' with h4 | h4
        · exact Or.inl (h3 ▸ h4)
        · exact Or.inr (h3.trans h4)


/-- Every record kept by the dedup pass comes from the input list. -/
theorem dedupPass_subset (seen : List (String × Option String)) (l : List Event) :
    ∀ e ∈ dedupPass seen l, e ∈ l := by
  induction l generalizing seen with
  | nil => intro e he; cases he
  | cons a rest ih =>
    intro e he
    by_cases ha : evKey a ∈ seen
    · simp only [dedupPass, if_pos ha] at he
      exact List.mem_cons_of_mem a (ih seen e he)
    · simp only [dedupPass, if_neg ha, List.mem_cons] at he
      rcases he with he | he
      · exact he ▸ List.mem_cons_self a rest
      · exact List.mem_cons_of_mem a (ih _ e he)

/-- A record kept by the dedup pass has a key outside `seen`, and is the
first record of the input carrying its key. -/
theorem dedupPass_first (seen : List (String × Option String)) (l : List Event) :
    ∀ e ∈ dedupPass seen l,
      evKey e ∉ seen ∧ l.find? (fun x => decide (evKey x = evKey e)) = some e := by
  induction l generalizing seen with
  | nil => intro e he; cases he
  | cons a rest ih =>
    intro e he
    by_cases ha : evKey a ∈ seen
    · simp only [dedupPass, if_pos ha] at he
      obtain ⟨hseen, hfind⟩ := ih seen e he
      have hne : evKey a ≠ evKey e := fun h => hseen (h ▸ ha)
      refine ⟨hseen, ?_⟩
      rw [List.find?_cons_of_neg _ (by simpa using hne), hfind]
    · simp only [dedupPass, if_neg ha, List.mem_cons] at he
      rcases he with he | he
      · subst he
        exact ⟨ha, List.find?_cons_of_pos _ (by simp)⟩
      · obtain ⟨hseen, hfind⟩ := ih _ e he
        have hne : evKey a ≠ evKey e := fun h => hseen (by simp [h])
        have hout : evKey e ∉ seen := fun h => hseen (List.mem_cons_of_mem _ h)
        refine ⟨hout, ?_⟩
        rw [List.find?_cons_of_neg _ (by simpa using hne), hfind]

/-- The dedup pass never keeps two records with the same key. -/
theorem dedupPass_pairwise (seen : List (String × Option String)) (l : List Event) :
    (dedupPass seen l).Pairwise (fun a b => evKey a ≠ evKey b) := by
  induction l generalizing seen with
  | nil => exact List.Pairwise.nil
  | cons a rest ih =>
    by_cases ha : evKey a ∈ seen
    · simpa only [dedupPass, if_pos ha] using ih seen
    · simp only [dedupPass, if_neg ha]
      refine List.Pairwise.cons ?_ (ih _)
      intro b hb
      have := (dedupPass_first _ _ b hb).1
      exact fun h => this (by simp [h])

/-- On a list whose keys avoid `seen` and are pairwise distinct, the dedup
pass keeps everything. -/
theorem dedupPass_eq_self (l : List Event) (seen : List (String × Option String))
    (hs : ∀ e ∈ l, evKey e ∉ seen)
    (hp : l.Pairwise (fun a b => evKey a ≠ evKey b)) : dedupPass seen l = l := by
  induction l generalizing seen with
  | nil => rfl
  | cons a rest ih =>
    have ha : evKey a ∉ seen := hs a (List.mem_cons_self a rest)
    simp only [dedupPass, if_neg ha]
    refine congrArg (a :: ·) (ih _ ?_ hp.of_cons)
    intro e he
    simp only [List.mem_cons]
    rintro (h | h)
    · exact (List.rel_of_pairwise_cons hp he) h.symm
    · exact hs e (List.mem_cons_of_mem a he) h

/-- Unfolding of a successful `_deduplicate_events` run. -/
theorem dedup_ok_elim {l out : List Event} (h : _deduplicate_events l = .ok out) :
    mixedTimes (dedupPass [] l) = false ∧
      out = List.insertionSort eventLe (dedupPass [] l) := by
  unfold _deduplicate_events at h
  by_cases hm : mixedTimes (dedupPass [] l) = true
  · rw [if_pos hm] at h; cases h
  · rw [if_neg hm] at h
    exact ⟨by simpa using hm, by injection h with h; exact h.symm⟩

/-- The output of a successful `_deduplicate_events` run is a permutation
of the dedup pass. -/
theorem dedup_ok_perm {l out : List Event} (h : _deduplicate_events l = .ok out) :
    out.Perm (dedupPass [] l) := by
  rw [(dedup_ok_elim h).2]
  exact List.perm_insertionSort eventLe (dedupPass [] l)

/-- The output of a successful `_deduplicate_events` run is sorted by the
`(time, name)` display-string order. -/
theorem dedup_ok_sorted {l out : List Event} (h : _deduplicate_events l = .ok out) :
    out.Sorted eventLe := by
  rw [(dedup_ok_elim h).2]
  exact List.sorted_insertionSort eventLe (dedupPass [] l)

/-- `List.any` is invariant under permutation. -/
theorem any_eq_of_perm {l₁ l₂ : List Event} (h : l₁.Perm l₂) (p : Event → Bool) :
    l₁.any p = l₂.any p := by
  cases h2 : l₂.any p
  · rw [List.any_eq_false] at h2 ⊢
    intro x hx
    exact h2 x (h.mem_iff.mp hx)
  · rw [List.any_eq_true] at h2 ⊢
    obtain ⟨x, hx, hp⟩ := h2
    exact ⟨x, h.mem_iff.mpr hx, hp⟩

/-- The mixed-time test is invariant under permutation. -/
theorem mixedTimes_eq_of_perm {l₁ l₂ : List Event} (h : l₁.Perm l₂) :
    mixedTimes l₁ = mixedTimes l₂ := by
  unfold mixedTimes
  rw [any_eq_of_perm h, any_eq_of_perm h]

end DedupLemmas

section AqiLemmas

/-- When no breakpoint row brackets the concentration, the scan falls
through and returns the saturation value 500. -/
theorem calc_of_forall_not (c : ℚ) (bps : List Bp)
    (h : ∀ b ∈ bps, ¬(b.low_conc ≤ c ∧ c ≤ b.high_conc)) :
    _calculate_epa_aqi c bps = 500 := by
  induction bps with
  | nil => rfl
  | cons b rest ih =>
    simp only [_calculate_epa_aqi]
    rw [if_neg (h b (List.mem_cons_self b rest))]
    exact ih fun b' hb' => h b' (List.mem_cons_of_mem b hb')

/-- On a table whose rows are strictly separated, the scan returns the
interpolation formula of whichever row brackets the concentration. -/
theorem calc_of_mem (c : ℚ) (bps : List Bp)
    (hp : bps.Pairwise (fun a b => a.high_conc < b.low_conc))
    (b : Bp) (hb : b ∈ bps) (h1 : b.low_conc ≤ c) (h2 : c ≤ b.high_conc)
    (hlt : b.low_conc < b.high_conc) :
    _calculate_epa_aqi c bps =
      pyRound ((((b.high_aqi : ℚ) - b.low_aqi) / (b.high_conc - b.low_conc)) *
        (c - b.low_conc) + b.low_aqi) := by
  induction bps with
  | nil => cases hb
  | cons a rest ih =>
    rw [List.mem_cons] at hb
    rcases hb with rfl | hb
    · simp only [_calculate_epa_aqi]
      rw [if_pos ⟨h1, h2⟩, if_neg (ne_of_gt hlt)]
    · have halt : a.high_conc < b.low_conc := List.rel_of_pairwise_cons hp hb
      simp only [_calculate_epa_aqi]
      rw [if_neg (by rintro ⟨_, hc2⟩; linarith)]
      exact ih hp.of_cons hb

/-- Rounding a value whose fractional part is below one half. -/
theorem pyRound_low (q : ℚ) (n : ℤ) (h1 : (n : ℚ) ≤ q) (h2 : q < n + 1/2) :
    pyRound q = n := by
  have hf : ⌊q⌋ = n := by
    rw [Int.floor_eq_iff]
    refine ⟨h1, ?_⟩
    have : ((n : ℚ) + 1 : ℚ) = ((n + 1 : ℤ) : ℚ) := by push_cast; ring
    linarith [this]
  unfold pyRound
  rw [hf, if_pos (by linarith)]

/-- Rounding a value whose fractional part is above one half. -/
theorem pyRound_high (q : ℚ) (n : ℤ) (h1 : (n : ℚ) + 1/2 < q) (h2 : q < n + 1) :
    pyRound q = n + 1 := by
  have hf : ⌊q⌋ = n := by
    rw [Int.floor_eq_iff]
    constructor <;> linarith
  unfold pyRound
  rw [hf, if_neg (by linarith), if_pos (by linarith)]

/-- The overall `max` always coincides with one of the five inputs. -/
theorem epa_aqi_eq_one (c : Components) :
    epa_aqi c = aqi_pm25 c ∨ epa_aqi c = aqi_pm10 c ∨ epa_aqi c = aqi_o3 c ∨
      epa_aqi c = aqi_no2 c ∨ epa_aqi c = aqi_co c := by
  unfold epa_aqi
  rcases max_choice (aqi_pm25 c)
    (max (aqi_pm10 c) (max (aqi_o3 c) (max (aqi_no2 c) (aqi_co c)))) with h | h
  · exact Or.inl h
  rw [h]
  rcases max_choice (aqi_pm10 c) (max (aqi_o3 c) (max (aqi_no2 c) (aqi_co c))) with h2 | h2
  · exact Or.inr (Or.inl h2)
  rw [h2]
  rcases max_choice (aqi_o3 c) (max (aqi_no2 c) (aqi_co c)) with h3 | h3
  · exact Or.inr (Or.inr (Or.inl h3))
  rw [h3]
  rcases max_choice (aqi_no2 c) (aqi_co c) with h4 | h4
  · exact Or.inr (Or.inr (Or.inr (Or.inl h4)))
  · exact Or.inr (Or.inr (Or.inr (Or.inr (h4 ▸ h4))))

/-- The PM2.5 table's rows are strictly separated. -/
theorem pm2_5_pairwise :
    pm2_5_breakpoints.Pairwise (fun a b => a.high_conc < b.low_conc) := by
  norm_num [pm2_5_breakpoints, List.pairwise_cons, List.forall_mem_cons]

/-- The PM10 table's rows are strictly separated. -/
theorem pm10_pairwise :
    pm10_breakpoints.Pairwise (fun a b => a.high_conc < b.low_conc) := by
  norm_num [pm10_breakpoints, List.pairwise_cons, List.forall_mem_cons]

/-- The O3 table's rows are strictly separated. -/
theorem o3_pairwise :
    o3_breakpoints.Pairwise (fun a b => a.high_conc < b.low_conc) := by
  norm_num [o3_breakpoints, List.pairwise_cons, List.forall_mem_cons]

/-- The NO2 table's rows are strictly separated. -/
theorem no2_pairwise :
    no2_breakpoints.Pairwise (fun a b => a.high_conc < b.low_conc) := by
  norm_num [no2_breakpoints, List.pairwise_cons, List.forall_mem_cons]

/-- The CO table's rows are strictly separated. -/
theorem co_pairwise :
    co_breakpoints.Pairwise (fun a b => a.high_conc < b.low_conc) := by
  norm_num [co_breakpoints, List.pairwise_cons, List.forall_mem_cons]

/-- On a table with strictly separated rows whose bounds are ordered, a
concentration strictly between two consecutive rows matches no row, so the
scan falls through to 500. -/
theorem calc_gap (bps : List Bp)
    (hp : bps.Pairwise (fun a b => a.high_conc < b.low_conc))
    (hrows : ∀ b ∈ bps, b.low_conc ≤ b.high_conc)
    (i : Nat) (hi : i + 1 < bps.length) (c : ℚ)
    (h1 : (bps.get ⟨i, Nat.lt_of_succ_lt hi⟩).high_conc < c)
    (h2 : c < (bps.get ⟨i + 1, hi⟩).low_conc) :
    _calculate_epa_aqi c bps = 500 := by
  have hget := List.pairwise_iff_get.mp hp
  apply calc_of_forall_not
  intro b hb
  rintro ⟨hbl, hbh⟩
  obtain ⟨⟨j, hj⟩, hbj⟩ := List.mem_iff_get.mp hb
  rcases le_or_lt j i with hji | hji
  · have hle : b.high_conc ≤ (bps.get ⟨i, Nat.lt_of_succ_lt hi⟩).high_conc := by
      rcases Nat.eq_or_lt_of_le hji with heq | hlt
      · subst heq
        rw [← hbj]
      · have hsep := hget ⟨j, hj⟩ ⟨i, Nat.lt_of_succ_lt hi⟩ hlt
        have hri := hrows _ (List.get_mem bps i (Nat.lt_of_succ_lt hi))
        rw [← hbj]
        linarith
    linarith
  · have hle : (bps.get ⟨i + 1, hi⟩).low_conc ≤ b.low_conc := by
      rcases Nat.eq_or_lt_of_le hji with heq | hlt
      · subst heq
        rw [← hbj]
      · have hsep := hget ⟨i + 1, hi⟩ ⟨j, hj⟩ hlt
        have hri := hrows _ (List.get_mem bps (i + 1) hi)
        rw [← hbj]
        linarith
    linarith

end AqiLemmas

/-- C4: for every adapter output lists concatenated in the order
Eventbrite, Ticketmaster, SeatGeek, a successful deduplication yields a
list in which no two records share the key `(name.lower().strip(), time)`,
and each retained record is the first record of the concatenation carrying
its key — so the primary provider's version wins ties. -/
theorem dedup_unique_first_wins :
    ∀ (eventbrite ticketmaster seatgeek out : List Event),
      _deduplicate_events (eventbrite ++ ticketmaster ++ seatgeek) = .ok out →
      out.Pairwise (fun a b => evKey a ≠ evKey b) ∧
        ∀ e ∈ out,
          (eventbrite ++ ticketmaster ++ seatgeek).find?
            (fun x => decide (evKey x = evKey e)) = some e := by
  intro eb tm sg out h
  have hperm := dedup_ok_perm h
  constructor
  · exact (List.Perm.pairwise_iff (fun hxy => hxy.symm) hperm).mpr
      (dedupPass_pairwise [] (eb ++ tm ++ sg))
  · intro e he
    exact (dedupPass_first [] (eb ++ tm ++ sg) e (hperm.mem_iff.mp he)).2

/-- Witness for C4: an Eventbrite record and a Ticketmaster record with
the same lowered, stripped name and the same time collide; the Eventbrite
version is kept. -/
theorem dedup_unique_first_wins_witness :
    _deduplicate_events ([sample_primary] ++ [sample_secondary] ++ []) =
      .ok [sample_primary] ∧
    ([sample_primary] : List Event).Pairwise (fun a b => evKey a ≠ evKey b) ∧
      ∀ e ∈ [sample_primary],
        ([sample_primary] ++ [sample_secondary] ++ []).find?
          (fun x => decide (evKey x = evKey e)) = some e :=
  ⟨by decide,
   dedup_unique_first_wins [sample_primary] [sample_secondary] [] [sample_primary]
     (by decide)⟩

/-- C5: every successful deduplication output is sorted ascending by the
pair `(time, name)` under string (code-point lexicographic) comparison of
the formatted 12-hour display strings — not parsed clock order: the
display string "10 PM" sorts strictly before "2 PM". -/
theorem dedup_sorted_by_display_string :
    (∀ (l out : List Event), _deduplicate_events l = .ok out → out.Sorted eventLe) ∧
    eventLe sample_ten_pm sample_two_pm ∧ ¬eventLe sample_two_pm sample_ten_pm := by
  refine ⟨fun l out h => dedup_ok_sorted h, by decide, by decide⟩

/-- Witness for C5 on a concrete two-record run. -/
theorem dedup_sorted_by_display_string_witness :
    ∃ out, _deduplicate_events [sample_two_pm, sample_ten_pm] = .ok out ∧
      out.Sorted eventLe :=
  ⟨_, rfl, dedup_sorted_by_display_string.1 [sample_two_pm, sample_ten_pm] _ rfl⟩

/-- C9: deduplication is idempotent — applying the dedup-and-sort step to
one of its own successful outputs returns that output unchanged, so running
the pipeline's dedup twice on the same concatenated adapter output yields
the same deduplicated set. -/
theorem dedup_idempotent :
    ∀ (l out : List Event), _deduplicate_events l = .ok out →
      _deduplicate_events out = .ok out := by
  intro l out h
  obtain ⟨hm, _⟩ := dedup_ok_elim h
  have hperm := dedup_ok_perm h
  have hpw : out.Pairwise (fun a b => evKey a ≠ evKey b) :=
    (List.Perm.pairwise_iff (fun hxy => hxy.symm) hperm).mpr
      (dedupPass_pairwise [] l)
  have hdp : dedupPass [] out = out :=
    dedupPass_eq_self out [] (by simp) hpw
  have hmix : mixedTimes out = false := (mixedTimes_eq_of_perm hperm).trans hm
  have hsorted : out.Sorted eventLe := dedup_ok_sorted h
  unfold _deduplicate_events
  rw [hdp]
  simp only [hmix, Bool.false_eq_true, if_false, hsorted.insertionSort_eq]

/-- Witness for C9 on a concrete run with a duplicate record. -/
theorem dedup_idempotent_witness :
    ∃ out, _deduplicate_events [sample_two_pm, sample_ten_pm, sample_two_pm] = .ok out ∧
      _deduplicate_events out = .ok out :=
  ⟨_, rfl, dedup_idempotent [sample_two_pm, sample_ten_pm, sample_two_pm] _ rfl⟩

/-- C6: for every hour value 0-23, the adapters' 12-hour time formatting
produces exactly: hour 0 → "12 AM", hours 1-11 → "{h} AM", hour 12 →
"12 PM", hours 13-23 → "{h-12} PM", with no leading zeros and no minutes;
in particular the spec's table rows 0 → "12 AM", 13 → "1 PM", 23 →
"11 PM", 12 → "12 PM" hold exactly. -/
theorem format_hour_12_table :
    (∀ h : Fin 24, format_hour_12 h.val =
      (if h.val = 0 then "12 AM"
       else if 1 ≤ h.val ∧ h.val ≤ 11 then toString h.val ++ " AM"
       else if h.val = 12 then "12 PM"
       else toString (h.val - 12) ++ " PM")) ∧
    format_hour_12 0 = "12 AM" ∧ format_hour_12 13 = "1 PM" ∧
    format_hour_12 23 = "11 PM" ∧ format_hour_12 12 = "12 PM" := by
  decide

/-- C1 (code bug): the `/api/events` route handler passes the keyword
argument `locations` to `get_seattle_events`, but the function defined in
events_service.py has no such parameter, so Python rejects the call with a
`TypeError` before any filtering can happen: no request that reaches this
call gets a location-filtered list and an unfiltered locations list back. -/
theorem route_locations_kwarg_rejected :
    bindKeywordArgs get_seattle_events_params route_get_events_kwargs =
      .error "TypeError: got an unexpected keyword argument locations" ∧
    "locations" ∉ get_seattle_events_params := by
  decide

/-- C10: for every pollutant table and every concentration lying strictly
between two consecutive breakpoint rows (above one row's high_conc and
below the next row's low_conc, e.g. PM2.5 at 12.05 between 12.0 and 12.1),
the calculation matches no bracket and returns the saturation value 500
rather than an interpolated value, even though the concentration is not
above the top bracket (some row's high_conc still lies at or above it). -/
theorem aqi_gap_returns_500 :
    ∀ T ∈ [pm2_5_breakpoints, pm10_breakpoints, o3_breakpoints, no2_breakpoints,
        co_breakpoints],
      ∀ (i : Nat) (hi : i + 1 < T.length) (c : ℚ),
        (T.get ⟨i, Nat.lt_of_succ_lt hi⟩).high_conc < c →
        c < (T.get ⟨i + 1, hi⟩).low_conc →
        _calculate_epa_aqi c T = 500 ∧ ∃ b ∈ T, c ≤ b.high_conc := by
  intro T hT
  have hp : T.Pairwise (fun a b => a.high_conc < b.low_conc) := by
    fin_cases hT
    exacts [pm2_5_pairwise, pm10_pairwise, o3_pairwise, no2_pairwise, co_pairwise]
  have hrows : ∀ b ∈ T, b.low_conc ≤ b.high_conc := by
    fin_cases hT <;>
      · intro b hb
        simp only [pm2_5_breakpoints, pm10_breakpoints, o3_breakpoints,
          no2_breakpoints, co_breakpoints, List.mem_cons, List.not_mem_nil,
          or_false] at hb
        rcases hb with rfl | rfl | rfl | rfl | rfl | rfl <;> norm_num
  intro i hi c h1 h2
  refine ⟨calc_gap T hp hrows i hi c h1 h2,
    T.get ⟨i + 1, hi⟩, List.get_mem T (i + 1) hi, ?_⟩
  exact le_trans (le_of_lt h2) (hrows _ (List.get_mem T (i + 1) hi))

/-- Witness for C10 at the PM2.5 gap concentration 12.05 between the rows
ending at 12.0 and starting at 12.1. -/
theorem aqi_gap_returns_500_witness :
    (pm2_5_breakpoints.get ⟨0, by norm_num [pm2_5_breakpoints]⟩).high_conc < 241/20 ∧
    (241/20 : ℚ) <
      (pm2_5_breakpoints.get ⟨1, by norm_num [pm2_5_breakpoints]⟩).low_conc ∧
    (_calculate_epa_aqi (241/20) pm2_5_breakpoints = 500 ∧
      ∃ b ∈ pm2_5_breakpoints, (241/20 : ℚ) ≤ b.high_conc) :=
  ⟨by norm_num [pm2_5_breakpoints], by norm_num [pm2_5_breakpoints],
   aqi_gap_returns_500 pm2_5_breakpoints (by simp) 0
     (by norm_num [pm2_5_breakpoints]) (241/20)
     (by norm_num [pm2_5_breakpoints]) (by norm_num [pm2_5_breakpoints])⟩

/-- Helper: membership in a credential-gated list implies membership in the
ungated list. -/
theorem mem_of_mem_ite_nil {c : Prop} [Decidable c] {l : List Event} {e : Event}
    (h : e ∈ if c then l else []) : e ∈ l := by
  split at h
  · exact h
  · cases h

/-- Helper: the type filter only ever drops records. -/
theorem mem_of_mem_filter_events {l : List Event} {s : String} {e : Event}
    (h : e ∈ _filter_events_by_type l s) : e ∈ l := by
  unfold _filter_events_by_type at h
  split at h
  · exact h
  · exact (List.mem_filter.mp h).1

/-- Helper: every placeholder record's time is one of the fixed strings. -/
theorem placeholder_times (d : String) :
    ∀ e ∈ placeholder_list d, ∃ t, e.time = some t ∧ t ∈ placeholder_time_strings := by
  intro e he
  fin_cases he <;> exact ⟨_, rfl, by decide⟩

/-- Helper: a record surviving dedup comes from one of the three adapter
lists. -/
theorem mem_sources_of_mem_dedup {eb tm sg uniq : List Event}
    {c1 c2 c3 : Prop} [Decidable c1] [Decidable c2] [Decidable c3]
    (hd : _deduplicate_events
      ((if c1 then eb else []) ++ (if c2 then tm else []) ++
        (if c3 then sg else [])) = .ok uniq)
    {e : Event} (he : e ∈ uniq) : e ∈ eb ∨ e ∈ tm ∨ e ∈ sg := by
  have he6 := dedupPass_subset _ _ e ((dedup_ok_perm hd).mem_iff.mp he)
  rw [List.append_assoc, List.mem_append, List.mem_append] at he6
  rcases he6 with h6 | h6 | h6
  · exact Or.inl (mem_of_mem_ite_nil h6)
  · exact Or.inr (Or.inl (mem_of_mem_ite_nil h6))
  · exact Or.inr (Or.inr (mem_of_mem_ite_nil h6))

/-- C3: for every concentration C inside a breakpoint bracket of any of the
five tables, the per-pollutant AQI is round(((I_high - I_low) / (C_high -
C_low)) * (C - C_low) + I_low); concentrations above each table's top
bracket give 500; the overall AQI is the max of the five per-pollutant
AQIs; and the dominant pollutant is the first pollutant achieving that
maximum in the fixed order PM2.5, PM10, O3, NO2, CO. -/
theorem epa_aqi_formula_spec :
    (∀ T ∈ [pm2_5_breakpoints, pm10_breakpoints, o3_breakpoints, no2_breakpoints,
        co_breakpoints],
      ∀ b ∈ T, ∀ c : ℚ, b.low_conc ≤ c → c ≤ b.high_conc →
        _calculate_epa_aqi c T =
          pyRound ((((b.high_aqi : ℚ) - b.low_aqi) / (b.high_conc - b.low_conc)) *
            (c - b.low_conc) + b.low_aqi)) ∧
    (∀ c : ℚ, 5004/10 < c → _calculate_epa_aqi c pm2_5_breakpoints = 500) ∧
    (∀ c : ℚ, 604 < c → _calculate_epa_aqi c pm10_breakpoints = 500) ∧
    (∀ c : ℚ, 500 < c → _calculate_epa_aqi c o3_breakpoints = 500) ∧
    (∀ c : ℚ, 2049 < c → _calculate_epa_aqi c no2_breakpoints = 500) ∧
    (∀ c : ℚ, 504/10 < c → _calculate_epa_aqi c co_breakpoints = 500) ∧
    (∀ comp : Components,
      aqi_pm25 comp ≤ epa_aqi comp ∧ aqi_pm10 comp ≤ epa_aqi comp ∧
      aqi_o3 comp ≤ epa_aqi comp ∧ aqi_no2 comp ≤ epa_aqi comp ∧
      aqi_co comp ≤ epa_aqi comp ∧
      (epa_aqi comp = aqi_pm25 comp ∨ epa_aqi comp = aqi_pm10 comp ∨
       epa_aqi comp = aqi_o3 comp ∨ epa_aqi comp = aqi_no2 comp ∨
       epa_aqi comp = aqi_co comp)) ∧
    (∀ comp : Components,
      (dominant_pollutant comp = some "PM2.5" ↔ epa_aqi comp = aqi_pm25 comp) ∧
      (dominant_pollutant comp = some "PM10" ↔
        (epa_aqi comp ≠ aqi_pm25 comp ∧ epa_aqi comp = aqi_pm10 comp)) ∧
      (dominant_pollutant comp = some "O₃" ↔
        (epa_aqi comp ≠ aqi_pm25 comp ∧ epa_aqi comp ≠ aqi_pm10 comp ∧
         epa_aqi comp = aqi_o3 comp)) ∧
      (dominant_pollutant comp = some "NO₂" ↔
        (epa_aqi comp ≠ aqi_pm25 comp ∧ epa_aqi comp ≠ aqi_pm10 comp ∧
         epa_aqi comp ≠ aqi_o3 comp ∧ epa_aqi comp = aqi_no2 comp)) ∧
      (dominant_pollutant comp = some "CO" ↔
        (epa_aqi comp ≠ aqi_pm25 comp ∧ epa_aqi comp ≠ aqi_pm10 comp ∧
         epa_aqi comp ≠ aqi_o3 comp ∧ epa_aqi comp ≠ aqi_no2 comp ∧
         epa_aqi comp = aqi_co comp)) ∧
      dominant_pollutant comp ≠ none) := by
  refine ⟨?_, ?_, ?_, ?_, ?_, ?_, ?_, ?_⟩
  · intro T hT
    simp only [List.mem_cons, List.not_mem_nil, or_false] at hT
    rcases hT with rfl | rfl | rfl | rfl | rfl
    · intro b hb
      simp only [pm2_5_breakpoints, List.mem_cons, List.not_mem_nil, or_false] at hb
      rcases hb with rfl | rfl | rfl | rfl | rfl | rfl <;>
        · intro c h1 h2
          exact calc_of_mem c _ pm2_5_pairwise _ (by norm_num [pm2_5_breakpoints]) h1 h2
            (by norm_num)
    · intro b hb
      simp only [pm10_breakpoints, List.mem_cons, List.not_mem_nil, or_false] at hb
      rcases hb with rfl | rfl | rfl | rfl | rfl | rfl <;>
        · intro c h1 h2
          exact calc_of_mem c _ pm10_pairwise _ (by norm_num [pm10_breakpoints]) h1 h2
            (by norm_num)
    · intro b hb
      simp only [o3_breakpoints, List.mem_cons, List.not_mem_nil, or_false] at hb
      rcases hb with rfl | rfl | rfl | rfl | rfl | rfl <;>
        · intro c h1 h2
          exact calc_of_mem c _ o3_pairwise _ (by norm_num [o3_breakpoints]) h1 h2
            (by norm_num)
    · intro b hb
      simp only [no2_breakpoints, List.mem_cons, List.not_mem_nil, or_false] at hb
      rcases hb with rfl | rfl | rfl | rfl | rfl | rfl <;>
        · intro c h1 h2
          exact calc_of_mem c _ no2_pairwise _ (by norm_num [no2_breakpoints]) h1 h2
            (by norm_num)
    · intro b hb
      simp only [co_breakpoints, List.mem_cons, List.not_mem_nil, or_false] at hb
      rcases hb with rfl | rfl | rfl | rfl | rfl | rfl <;>
        · intro c h1 h2
          exact calc_of_mem c _ co_pairwise _ (by norm_num [co_breakpoints]) h1 h2
            (by norm_num)
  · intro c hc
    apply calc_of_forall_not
    intro b hb
    simp only [pm2_5_breakpoints, List.mem_cons, List.not_mem_nil, or_false] at hb
    rcases hb with rfl | rfl | rfl | rfl | rfl | rfl <;>
      · rintro ⟨h1, h2⟩
        simp only at h1 h2
        linarith
  · intro c hc
    apply calc_of_forall_not
    intro b hb
    simp only [pm10_breakpoints, List.mem_cons, List.not_mem_nil, or_false] at hb
    rcases hb with rfl | rfl | rfl | rfl | rfl | rfl <;>
      · rintro ⟨h1, h2⟩
        simp only at h1 h2
        linarith
  · intro c hc
    apply calc_of_forall_not
    intro b hb
    simp only [o3_breakpoints, List.mem_cons, List.not_mem_nil, or_false] at hb
    rcases hb with rfl | rfl | rfl | rfl | rfl | rfl <;>
      · rintro ⟨h1, h2⟩
        simp only at h1 h2
        linarith
  · intro c hc
    apply calc_of_forall_not
    intro b hb
    simp only [no2_breakpoints, List.mem_cons, List.not_mem_nil, or_false] at hb
    rcases hb with rfl | rfl | rfl | rfl | rfl | rfl <;>
      · rintro ⟨h1, h2⟩
        simp only at h1 h2
        linarith
  · intro c hc
    apply calc_of_forall_not
    intro b hb
    simp only [co_breakpoints, List.mem_cons, List.not_mem_nil, or_false] at hb
    rcases hb with rfl | rfl | rfl | rfl | rfl | rfl <;>
      · rintro ⟨h1, h2⟩
        simp only at h1 h2
        linarith
  · intro comp
    refine ⟨le_max_left _ _, ?_, ?_, ?_, ?_, epa_aqi_eq_one comp⟩
    · exact le_trans (le_max_left _ _) (le_max_right _ _)
    · exact le_trans (le_trans (le_max_left _ _) (le_max_right _ _)) (le_max_right _ _)
    · exact le_trans (le_trans (le_trans (le_max_left _ _) (le_max_right _ _))
        (le_max_right _ _)) (le_max_right _ _)
    · exact le_trans (le_trans (le_trans (le_max_right _ _) (le_max_right _ _))
        (le_max_right _ _)) (le_max_right _ _)
  · intro comp
    unfold dominant_pollutant
    split_ifs with h1 h2 h3 h4 h5
    · simp_all
    · simp_all
    · simp_all
    · simp_all
    · simp_all
    · exfalso
      rcases epa_aqi_eq_one comp with h | h | h | h | h
      · exact h1 h
      · exact h2 h
      · exact h3 h
      · exact h4 h
      · exact h5 h

/-- Witness for C3: the spec's scenario pm2_5 = 40 sits in the 35.5-55.4
bracket and interpolates (and rounds) to 112. -/
theorem epa_aqi_formula_spec_witness :
    (355/10 : ℚ) ≤ 40 ∧ (40 : ℚ) ≤ 554/10 ∧
    _calculate_epa_aqi 40 pm2_5_breakpoints = 112 := by
  refine ⟨by norm_num, by norm_num, ?_⟩
  have h := epa_aqi_formula_spec.1 pm2_5_breakpoints (by simp)
    ⟨355/10, 554/10, 101, 150⟩ (by norm_num [pm2_5_breakpoints]) 40 (by norm_num) (by norm_num)
  rw [h]
  norm_num
  exact pyRound_low _ 112 (by norm_num) (by norm_num)

/-- C7: a missing/falsy OPENWEATHER_API_KEY makes every weather request
raise at request time, while removing any event provider's credentials is
exactly equivalent to that provider returning no records — and with no
event credentials at all the events pipeline still succeeds (placeholder
fallback), never failing the request. -/
theorem weather_key_required_others_optional :
    (∀ (W : Type) (cfg : Config) (upstream : Except String W),
      truthy cfg.openweather_api_key = false →
      get_seattle_weather cfg upstream = .error "OPENWEATHER_API_KEY is not set") ∧
    (∀ (cfg : Config) (et : Option String) (lim : Nat) (d : String)
        (eb tm sg : List Event),
      get_seattle_events { cfg with ticketmaster_api_key := none } et lim d eb tm sg =
        get_seattle_events cfg et lim d eb [] sg) ∧
    (∀ (cfg : Config) (et : Option String) (lim : Nat) (d : String)
        (eb tm sg : List Event),
      get_seattle_events
          { cfg with
            seatgeek_client_id := none
            seatgeek_client_secret := none }
          et lim d eb tm sg =
        get_seattle_events cfg et lim d eb tm []) ∧
    (∀ (cfg : Config) (et : Option String) (lim : Nat) (d : String)
        (eb tm sg : List Event),
      get_seattle_events { cfg with eventbrite_api_key := none } et lim d eb tm sg =
        get_seattle_events cfg et lim d [] tm sg) ∧
    (∀ (cfg : Config) (et : Option String) (lim : Nat) (d : String)
        (eb tm sg : List Event), ∃ l,
      get_seattle_events
          { cfg with
            eventbrite_api_key := none
            ticketmaster_api_key := none
            seatgeek_client_id := none
            seatgeek_client_secret := none }
          et lim d eb tm sg = .ok l) := by
  refine ⟨?_, ?_, ?_, ?_, ?_⟩
  · intro W cfg upstream hkey
    unfold get_seattle_weather
    rw [hkey]
    simp
  · intro cfg et lim d eb tm sg
    cases htm : truthy cfg.ticketmaster_api_key <;>
      simp [get_seattle_events, truthy, htm]
  · intro cfg et lim d eb tm sg
    cases hsg : truthy cfg.seatgeek_client_id <;>
      cases hsg2 : truthy cfg.seatgeek_client_secret <;>
        simp [get_seattle_events, truthy, hsg, hsg2]
  · intro cfg et lim d eb tm sg
    cases heb : truthy cfg.eventbrite_api_key <;>
      simp [get_seattle_events, truthy, heb]
  · intro cfg et lim d eb tm sg
    simp only [get_seattle_events, _deduplicate_events, dedupPass, mixedTimes, truthy,
      List.any_nil, Bool.and_self, Bool.false_eq_true, if_false, List.insertionSort,
      List.append_nil, List.nil_append]
    split <;> split <;> exact ⟨_, rfl⟩

/-- Witness for C7: the hard weather failure fires on the empty
configuration. -/
theorem weather_key_required_witness :
    get_seattle_weather no_keys_config (Except.ok () : Except String Unit) =
      .error "OPENWEATHER_API_KEY is not set" :=
  weather_key_required_others_optional.1 Unit no_keys_config (Except.ok ()) rfl

/-- C2 counterexample: the filter "sports" matches the placeholder
"Seattle Mariners Game", yet with limit = 1 and all adapters empty the
pipeline returns an empty list, because `_get_placeholder_events(limit*2)`
truncates to the first 2 placeholders before filtering. -/
theorem placeholder_fallback_counterexample :
    eventTypeMatches (possible_matches "sports")
      { name := "Seattle Mariners Game", time := some "7:10 PM",
        date := some "Jan 01, 2025", area := "Sodo", type := "Sports",
        url := "https://www.mlb.com/mariners" } = true ∧
    ({ name := "Seattle Mariners Game", time := some "7:10 PM",
        date := some "Jan 01, 2025", area := "Sodo", type := "Sports",
        url := "https://www.mlb.com/mariners" } : Event) ∈
      placeholder_list "Jan 01, 2025" ∧
    get_seattle_events no_keys_config (some "sports") 1 "Jan 01, 2025" [] [] [] =
      .ok [] := by
  refine ⟨by decide, by decide, by decide⟩

/-- C2 (amended): if the category filter leaves at least one of the first
2*limit placeholder records and limit is positive, then with all live
adapters empty the pipeline output is non-empty, has at most `limit`
records, and every record passes the category filter (it is drawn from the
filtered placeholder prefix — placeholders are never mixed with live
results). -/
theorem placeholder_fallback_totality (cfg : Config) (et : String) (lim : Nat)
    (d : String) (hlim : 0 < lim)
    (hmatch : _filter_events_by_type (_get_placeholder_events d (lim * 2)) et ≠ []) :
    ∃ l, get_seattle_events cfg (some et) lim d [] [] [] = .ok l ∧
      l ≠ [] ∧ l.length ≤ lim ∧
      ∀ e ∈ l, e ∈ _filter_events_by_type (_get_placeholder_events d (lim * 2)) et := by
  refine ⟨(_filter_events_by_type (_get_placeholder_events d (lim * 2)) et).take lim,
    ?_, ?_, ?_, ?_⟩
  · by_cases het : et = ""
    · subst het
      simp [get_seattle_events, _deduplicate_events, dedupPass, mixedTimes,
        _filter_events_by_type, truthy, ite_self]
    · have het' : (et == "") = false := by simpa using het
      simp [get_seattle_events, _deduplicate_events, dedupPass, mixedTimes,
        _filter_events_by_type, truthy, het', ite_self]
  · intro hnil
    rw [List.take_eq_nil_iff] at hnil
    rcases hnil with h | h
    · omega
    · exact hmatch h
  · rw [List.length_take]
    exact min_le_left _ _
  · intro e he
    exact List.take_subset _ _ he

/-- Witness for C2 (amended) at filter "music", limit 5. -/
theorem placeholder_fallback_totality_witness :
    ∃ l, get_seattle_events no_keys_config (some "music") 5 "Jan 01, 2025" [] [] [] =
        .ok l ∧ l ≠ [] ∧ l.length ≤ 5 ∧
      ∀ e ∈ l, e ∈ _filter_events_by_type
        (_get_placeholder_events "Jan 01, 2025" (5 * 2)) "music" :=
  placeholder_fallback_totality no_keys_config "music" 5 "Jan 01, 2025"
    (by decide) (by decide)

/-- C8 (amended): every record the pipeline returns is taken unchanged
from an adapter list or from the static placeholder list, and every
placeholder record's time is one of the fixed placeholder time strings —
a set that includes minute-bearing values ("7:10 PM") and a range
("6–9 PM") in addition to rule-conformant ones. -/
theorem pipeline_output_provenance :
    ∀ (cfg : Config) (et : Option String) (lim : Nat) (d : String)
      (eb tm sg out : List Event),
      get_seattle_events cfg et lim d eb tm sg = .ok out →
      ∀ e ∈ out, (e ∈ eb ∨ e ∈ tm ∨ e ∈ sg) ∨
        (e ∈ placeholder_list d ∧
          ∃ t, e.time = some t ∧ t ∈ placeholder_time_strings) := by
  intro cfg et lim d eb tm sg out h e he
  simp only [get_seattle_events] at h
  split at h
  · exact absurd h (by simp)
  next uniq hd =>
    split at h <;> split at h <;> injection h with h <;> subst h
    · have he3 : e ∈ _get_placeholder_events d (lim * 2) :=
        mem_of_mem_filter_events (List.take_subset _ _ he)
      have he4 : e ∈ placeholder_list d := List.take_subset _ _ he3
      exact Or.inr ⟨he4, placeholder_times d e he4⟩
    · have he3 : e ∈ uniq := mem_of_mem_filter_events (List.take_subset _ _ he)
      exact Or.inl (mem_sources_of_mem_dedup hd he3)
    · have he4 : e ∈ placeholder_list d :=
        List.take_subset _ _ (List.take_subset _ _ he)
      exact Or.inr ⟨he4, placeholder_times d e he4⟩
    · have he3 : e ∈ uniq := List.take_subset _ _ he
      exact Or.inl (mem_sources_of_mem_dedup hd he3)

/-- Witness for C8 (amended) on a concrete placeholder-fallback run. -/
theorem pipeline_output_provenance_witness :
    ∃ out, get_seattle_events no_keys_config none 1 "Jan 01, 2025" [] [] [] = .ok out ∧
      ∀ e ∈ out, (e ∈ ([] : List Event) ∨ e ∈ ([] : List Event) ∨ e ∈ ([] : List Event)) ∨
        (e ∈ placeholder_list "Jan 01, 2025" ∧
          ∃ t, e.time = some t ∧ t ∈ placeholder_time_strings) :=
  ⟨_, rfl, pipeline_output_provenance no_keys_config none 1 "Jan 01, 2025" [] [] [] _ rfl⟩

/-- C8 counterexample: the pipeline (placeholder fallback, no filter)
returns a record with time "6–9 PM", which is not null, not "TBD", and not
producible by the 12-hour formatting rule for any hour. -/
theorem time_format_invariant_counterexample :
    ∃ out, get_seattle_events no_keys_config none 20 "Jan 01, 2025" [] [] [] = .ok out ∧
      ∃ e ∈ out, e.time = some "6–9 PM" ∧ e.time ≠ none ∧ e.time ≠ some "TBD" ∧
        ∀ h : Fin 24, format_hour_12 h.val ≠ "6–9 PM" := by
  refine ⟨placeholder_list "Jan 01, 2025", by decide, ?_⟩
  exact ⟨{ name := "Capitol Hill Art Walk"
           time := some "6–9 PM"
           date := some "Jan 01, 2025"
           area := "Capitol Hill"
           type := "Arts"
           url := "https://www.eventbrite.com" },
    by decide, rfl, by decide, by decide, by decide⟩

end SeattleToKnow
